import Mathlib

/-!
Verification of the PPT-generation prompt-mode parser and slide-assembly
state machine of `backend/agents/ppt_generator_agent.py` (class
`PPTContentGenerator`), against its natural-language specification.

Strings are embedded as `List Char` (`Str`).  Python's regex searches used
by the code are implemented as explicit character scanners that realize the
exact patterns appearing in the source (`slide\s+\d+.*?content:`,
`slide\s+titles?\s*:`, `Slide\s+(\d+):`, `Use\s+Image\s+(\d+)`,
`Title:\s*([^\n]+)`, ...).  The external LLM "bullet generator" is an
oracle parameter that may fail (`Except`), matching the spec's interface
boundary (prompt construction and JSON cleanup are absorbed into the
oracle, which directly returns the parsed bullet list or an error).
-/

namespace PPTAgent

/-- Text is a list of characters; Python string slicing, `in`, `find`,
`lower`, `strip` all have direct analogues at this type. -/
abbrev Str := List Char

/-- Coerce a Lean string literal to the `Str` embedding. -/
def str (s : String) : Str := s.data

/-- Python `str.lower()` (ASCII case folding, which covers every marker
the source matches on). -/
def lowerStr (s : Str) : Str := s.map Char.toLower

/-- Python whitespace for `str.strip` / regex `\s`: space, tab, newline,
carriage return, vertical tab, form feed. -/
def isPyWs (c : Char) : Bool :=
  c == ' ' || c == '\t' || c == '\n' || c == '\r' || c.toNat == 11 || c.toNat == 12

/-- Python `str.lstrip()`. -/
def pyLstrip (s : Str) : Str := s.dropWhile isPyWs

/-- Python `str.rstrip()`. -/
def pyRstrip (s : Str) : Str := (s.reverse.dropWhile isPyWs).reverse

/-- Python `str.strip()`. -/
def pyStrip (s : Str) : Str := pyRstrip (pyLstrip s)

/-- Does `pat` occur at the head of `s` (exact characters)? -/
def startsWithStr : Str → Str → Bool
  | [], _ => true
  | _ :: _, [] => false
  | p :: ps, c :: cs => p == c && startsWithStr ps cs

/-- Does the (lower-case) pattern `pat` occur at the head of `s`,
case-insensitively (regex `re.IGNORECASE` on an ASCII literal)? -/
def startsWithCI : Str → Str → Bool
  | [], _ => true
  | _ :: _, [] => false
  | p :: ps, c :: cs => p == c.toLower && startsWithCI ps cs

/-- Python `pat in s` substring containment. -/
def containsSub (pat : Str) : Str → Bool
  | [] => pat.isEmpty
  | s@(_ :: rest) => startsWithStr pat s || containsSub pat rest

/-- Python `s.find(pat)` returning the first match index, `none` for -1. -/
def findSubIdxAux (pat : Str) : Nat → Str → Option Nat
  | i, [] => if pat.isEmpty then some i else none
  | i, s@(_ :: rest) =>
    if startsWithStr pat s then some i else findSubIdxAux pat (i + 1) rest

/-- Index of the first occurrence of `pat` in `s` (Python `find`). -/
def findSubIdx (pat s : Str) : Option Nat := findSubIdxAux pat 0 s

/-- Regex `\s+` at the head of `s`: requires at least one whitespace
character, consumes the maximal run, returns the remainder. -/
def dropWs1 : Str → Option Str
  | [] => none
  | c :: rest => if isPyWs c then some (rest.dropWhile isPyWs) else none

/-- Decimal digits to a number, as Python `int` on a `\d+` capture. -/
def digitsToNat (ds : Str) : Nat :=
  ds.foldl (fun n c => n * 10 + (c.toNat - 48)) 0

/-- Does some position of `s` satisfy the positional matcher `p`?  This is
`re.search` for patterns whose match is decided locally at a position.
(The final empty-suffix position is also tried, as `re.search` does.) -/
def anyPos (p : Str → Bool) : Str → Bool
  | [] => p []
  | s@(_ :: rest) => p s || anyPos p rest

/-- Matcher for regex `slide\s+\d+.*?content:` (with `re.DOTALL`) at one
position: `slide`, then whitespace, then at least one digit, then
`content:` anywhere later.  (Backtracking of `\d+` into `.*?` only moves
trailing digits into the gap, so requiring a single leading digit and a
later `content:` is the exact match condition.) -/
def slideThenContentAt (s : Str) : Bool :=
  startsWithCI (str "slide") s &&
    (match dropWs1 (s.drop 5) with
     | some r =>
       match r with
       | d :: r2 => d.isDigit && containsSub (str "content:") r2
       | [] => false
     | none => false)

/-- `re.search(r'slide\s+\d+.*?content:', text, re.IGNORECASE | re.DOTALL)`. -/
def hasSlideNumContent (s : Str) : Bool := anyPos slideThenContentAt s

/-- Matcher for regex `slide\s+titles?\s*:` at one position. -/
def slideTitlesMarkerAt (s : Str) : Bool :=
  startsWithCI (str "slide") s &&
    (match dropWs1 (s.drop 5) with
     | some r =>
       if startsWithCI (str "title") r then
         let r2 := r.drop 5
         let r3 := if startsWithCI (str "s") r2 then r2.drop 1 else r2
         match (r3.dropWhile isPyWs) with
         | ':' :: _ => true
         | _ => false
       else false
     | none => false)

/-- `re.search(r'slide\s+titles?\s*:', text, re.IGNORECASE)`. -/
def hasSlideTitlesMarker (s : Str) : Bool := anyPos slideTitlesMarkerAt s

/-- The string `"don't modify"` (built characterwise to carry the
apostrophe, Char 39). -/
def dontModifyMarker : Str := str "don" ++ [Char.ofNat 39] ++ str "t modify"

/-- The five generation modes returned by `_detect_ppt_mode`. -/
inductive PPTMode where
  | mode_1 | mode_2 | mode_3 | mode_4 | mode_5
deriving DecidableEq, Repr

/-- Embedding of `PPTContentGenerator._detect_ppt_mode` (source lines
31-88): nested checks on the lower-cased prompt, in source order.  An
empty prompt (Python falsy) short-circuits to mode 1. -/
def detectPPTMode (prompt : Str) : PPTMode :=
  if prompt.isEmpty then .mode_1
  else
    let pl := lowerStr prompt
    if (containsSub (str "use exact content") pl || containsSub (str "exact content") pl)
        && (containsSub (str "do not modify") pl || containsSub dontModifyMarker pl)
        && (containsSub (str "content:") pl || hasSlideNumContent pl) then .mode_3
    else if containsSub (str "slide instructions:") pl then .mode_5
    else if containsSub (str "image placement:") pl then .mode_4
    else if hasSlideTitlesMarker pl || containsSub (str "slide structure:") pl then .mode_2
    else if (containsSub (str "default slide structure") pl || containsSub (str "use a default") pl)
            || (containsSub (str "generate all slide titles") pl
                || containsSub (str "generate all content yourself") pl) then .mode_1
    else .mode_1

/-- Spec 4.1 priority 1 (ExactContent): a "use exact content"/"exact
content" marker AND a "do not modify"/"don't modify" marker AND a
"Content:" section marker (literal or via the per-slide pattern). -/
def specExactContentCond (pl : Str) : Bool :=
  (containsSub (str "use exact content") pl || containsSub (str "exact content") pl)
    && (containsSub (str "do not modify") pl || containsSub dontModifyMarker pl)
    && (containsSub (str "content:") pl || hasSlideNumContent pl)

/-- Spec 4.1 priority 2 (MixedControl): a "slide instructions:" marker. -/
def specMixedCond (pl : Str) : Bool := containsSub (str "slide instructions:") pl

/-- Spec 4.1 priority 3 (ImageControlled): an "image placement:" marker. -/
def specImageCond (pl : Str) : Bool := containsSub (str "image placement:") pl

/-- Spec 4.1 priority 4 (CustomTitles): a "slide titles:" or "slide
structure:" marker. -/
def specTitlesCond (pl : Str) : Bool :=
  hasSlideTitlesMarker pl || containsSub (str "slide structure:") pl

/-- Spec 4.1 priority 5 (AutoGenerate markers). -/
def specAutoCond (pl : Str) : Bool :=
  (containsSub (str "default slide structure") pl || containsSub (str "use a default") pl)
    || (containsSub (str "generate all slide titles") pl
        || containsSub (str "generate all content yourself") pl)

/-- Classification exactly as the spec words it: the five predicates tried
in the fixed priority order, AutoGenerate as the fallback when no marker
matches. -/
def specClassify (prompt : Str) : PPTMode :=
  let pl := lowerStr prompt
  if specExactContentCond pl then .mode_3
  else if specMixedCond pl then .mode_5
  else if specImageCond pl then .mode_4
  else if specTitlesCond pl then .mode_2
  else if specAutoCond pl then .mode_1
  else .mode_1

/-- C3.  Mode classification is a total, deterministic function: `detectPPTMode`
is a total Lean function (hence deterministic — equal inputs give equal
outputs), and on every instruction string, including the empty one, it
returns exactly the mode selected by the spec's fixed priority order
(ExactContent, then MixedControl, then ImageControlled, then CustomTitles,
then the AutoGenerate markers, defaulting to AutoGenerate). -/
theorem spec_C3_classification :
    (∀ p : Str, detectPPTMode p = specClassify p) ∧ detectPPTMode (str "") = .mode_1 := by
  constructor
  · intro p
    cases p with
    | nil => rfl
    | cons c cs =>
      show detectPPTMode (c :: cs) = specClassify (c :: cs)
      unfold detectPPTMode specClassify specExactContentCond specMixedCond specImageCond
        specTitlesCond specAutoCond
      simp only [List.isEmpty_cons, if_false, Bool.false_eq_true]
  · rfl

/-! ## Data model: parsed requests and slides

The Python code passes around plain dicts; optional dict keys become
`Option`/defaulted fields.  The underscore-prefixed bookkeeping flags
(`_is_exact_content`, `_mode_5_image_mode`, `_no_image`, `title_locked`,
`original_title`) become ordinary fields with their "key absent" default. -/

/-- One extracted `{'slide_number': n, 'title': t}` record. -/
structure TitleInfo where
  slide_number : Nat
  title : Str
deriving DecidableEq, Repr

/-- One extracted Mode-3 record `{'slide_number', 'title', 'content'}`. -/
structure ExactSlide where
  slide_number : Nat
  title : Str
  content : List Str
deriving DecidableEq, Repr

/-- One extracted Mode-4 record `{'image_number', 'slide_number'}`. -/
structure ImageMap where
  image_number : Nat
  slide_number : Nat
deriving DecidableEq, Repr

/-- One extracted Mode-5 per-slide instruction record (`_parse_mode_5`). -/
structure SlideInstr where
  slide_number : Nat
  title : Str
  should_generate : Bool
  exact_content : Option (List Str)
  image_number : Option Nat
  image_mode : Str
  no_image : Bool
deriving DecidableEq, Repr

/-- The normalized parser output dict common to the five `_parse_mode_N`
functions (mode-specific payload fields default to empty). -/
structure ParsedRequest where
  number : Nat
  topic : Str
  subject : Str
  slide_titles : List TitleInfo := []
  exact_content : List ExactSlide := []
  image_mappings : List ImageMap := []
  slide_instructions : List SlideInstr := []
deriving DecidableEq, Repr

/-- One assembled slide dict. -/
structure Slide where
  slide_number : Nat
  slide_type : Str
  title : Str
  content : List Str
  speaker_notes : Str
  image_number : Option Nat := none
  image_query : Option Str := none
  title_locked : Bool := false
  original_title : Option Str := none
  is_exact_content : Bool := false
  mode5_image_mode : Option Str := none
  no_image : Bool := false
deriving DecidableEq, Repr

/-- The result dict `{'presentation_title', 'presentation_subtitle',
'slides'}` (plus the Mode-2 `_mode_2_title_pure` marker flag). -/
structure PPTResult where
  presentation_title : Str
  presentation_subtitle : Str
  slides : List Slide
  mode2TitlePure : Bool := false
deriving DecidableEq, Repr

/-- Is an `Except` an error?  (Python: the call raised.) -/
def isErr {ε α : Type} : Except ε α → Bool
  | .error _ => true
  | .ok _ => false

/-- `subject or "Educational Presentation"` — Python falsiness of the
empty string. -/
def subjectOrDefault (subject : Str) : Str :=
  if subject.isEmpty then str "Educational Presentation" else subject

/-- The mandatory base/title slide inserted at position 0 by every
`_generate_mode_N` function. -/
def baseSlide (topic subject : Str) : Slide :=
  { slide_number := 1
    slide_type := str "title"
    title := topic
    content := [subjectOrDefault subject]
    speaker_notes := str "Introduction to the presentation on " ++ topic ++ str "." }

/-! ## External bullet generation (`_generate_single_slide_content`) -/

/-- The external LLM capability: the first call and the internal retry
(simplified prompt).  `Except.error` models the call raising; for the
retry, `.ok none` models a reply whose JSON cleanup fails inside the inner
`try` (the code then keeps the first reply's content). -/
structure GenOracle where
  firstCall : Nat → Str → Str → Str → Except Str (List Str)
  retryCall : Nat → Str → Str → Str → Except Str (Option (List Str))

/-- `_generate_fallback_bullets` (source lines 753-764): the eight
templated sentences. -/
def generateFallbackBullets (title topic subject : Str) : List Str :=
  [ str "Key concept about " ++ title ++ str " in the context of " ++ topic
  , str "Important aspect of " ++ title ++ str " relevant to " ++ subject
  , str "Fundamental principle related to " ++ title
  , str "Practical application of " ++ title ++ str " in " ++ topic
  , str "Core understanding of " ++ title
  , str "Essential knowledge about " ++ title
  , str "Significant detail regarding " ++ title
  , str "Critical point about " ++ title ++ str " in " ++ subject ]

/-- Final step of `_generate_single_slide_content`:
`return content[:10] if len(content) > 0 else fallback`. -/
def finishBullets (title topic subject : Str) (content : List Str) : List Str :=
  if 0 < content.length then content.take 10
  else generateFallbackBullets title topic subject

/-- `_generate_single_slide_content` (source lines 691-751): one oracle
call; on fewer than 8 items one retry whose raise is caught by the OUTER
`try` (hence falls back) and whose JSON-cleanup failure keeps the first
content; any raise yields the fallback bullets; at most 10 items kept. -/
def generateSingleSlideContent (g : GenOracle) (slideNum : Nat)
    (title topic subject : Str) : List Str :=
  match g.firstCall slideNum title topic subject with
  | .error _ => generateFallbackBullets title topic subject
  | .ok content =>
    if content.length < 8 then
      match g.retryCall slideNum title topic subject with
      | .error _ => generateFallbackBullets title topic subject
      | .ok none => finishBullets title topic subject content
      | .ok (some retried) => finishBullets title topic subject retried
    else finishBullets title topic subject content

/-- An oracle whose every call raises (quota/network failure). -/
def alwaysRaiseGen : GenOracle :=
  { firstCall := fun _ _ _ _ => .error (str "quota")
    retryCall := fun _ _ _ _ => .error (str "quota") }

/-! ## Content-length shaping (`_enforce_bullet_constraints`) -/

/-- One bullet through the shaping step: `p = point.strip()`; if longer
than `max_len` (140) it becomes `p[:137].rstrip() + "..."`. -/
def truncBullet (maxLen : Nat) (point : Str) : Str :=
  let p := pyStrip point
  if maxLen < p.length then pyRstrip (p.take (maxLen - 3)) ++ str "..."
  else p

/-- Per-slide body of `_enforce_bullet_constraints` (source lines
1549-1601): when called with `_mode_5_exact_guard=True`, slides flagged
`_is_exact_content` are skipped; otherwise each bullet is stripped and
truncated and at most `max_bullets` (10) are kept.  Titles are never
written, so the Mode-2 TITLE-PURE re-check in the source can never raise
and the function is pure. -/
def enforceSlide (exactGuard : Bool) (s : Slide) : Slide :=
  if exactGuard && s.is_exact_content then s
  else { s with content := (s.content.map (truncBullet 140)).take 10 }

/-- `_enforce_bullet_constraints` over the whole result dict. -/
def enforceBulletConstraints (exactGuard : Bool) (r : PPTResult) : PPTResult :=
  { r with slides := r.slides.map (enforceSlide exactGuard) }

/-! ## Image hints (`_add_image_hints`, source lines 1514-1547)

The Python function mutates the slide dicts of the list it is handed.  We
model it as a pure function from the handed list to the updated list;
callers that pass a filtered view merge the update back positionally with
`mergeBack` (list aliasing: the i-th included slide IS the i-th element of
the view). -/

/-- The Mode-5 skip guard at the top of both loops of `_add_image_hints`. -/
def hintSkip (s : Slide) : Bool :=
  s.mode5_image_mode == some (str "NONE") || s.no_image

/-- Keywords marking an architecture-like slide title. -/
def archKeywords : List Str :=
  [str "architecture", str "diagram", str "model", str "workflow",
   str "pipeline", str "structure", str "design"]

/-- The `f"{topic} {subject or ''} overview"` query (on `Str`, `subject or
''` is the identity). -/
def overviewQuery (topic subject : Str) : Str :=
  topic ++ [' '] ++ subject ++ str " overview"

/-- The `f"{topic} {subject or ''} architecture diagram"` query. -/
def archQuery (topic subject : Str) : Str :=
  topic ++ [' '] ++ subject ++ str " architecture diagram"

/-- First loop of `_add_image_hints`: walk the slides in order with the
`hints_added` counter and `found_arch` flag; `continue` on the Mode-5
skip, `break` once `hints_added >= max_hints`, assign the overview query
to title/intro slides and the architecture query to keyword slides. -/
def addImageHintsScan (topic subject : Str) (maxHints : Nat) :
    Nat → Bool → List Slide → List Slide × Bool
  | _, foundArch, [] => ([], foundArch)
  | hintsAdded, foundArch, s :: rest =>
    if hintSkip s then
      let r := addImageHintsScan topic subject maxHints hintsAdded foundArch rest
      (s :: r.1, r.2)
    else if maxHints ≤ hintsAdded then (s :: rest, foundArch)
    else
      let tl := lowerStr s.title
      if s.slide_type == str "title" || containsSub (str "intro") tl
          || containsSub (str "introduction") tl then
        let s2 := { s with image_query := some (overviewQuery topic subject) }
        let r := addImageHintsScan topic subject maxHints (hintsAdded + 1) foundArch rest
        (s2 :: r.1, r.2)
      else if archKeywords.any (fun k => containsSub k tl) then
        let s2 := { s with image_query := some (archQuery topic subject) }
        let r := addImageHintsScan topic subject maxHints (hintsAdded + 1) true rest
        (s2 :: r.1, r.2)
      else
        let r := addImageHintsScan topic subject maxHints hintsAdded foundArch rest
        (s :: r.1, r.2)

/-- Second loop of `_add_image_hints`: if no architecture hint was set,
force the architecture query onto the first non-skipped content slide. -/
def addImageHintsFallback (q : Str) : List Slide → List Slide
  | [] => []
  | s :: rest =>
    if hintSkip s then s :: addImageHintsFallback q rest
    else if s.slide_type == str "content" then
      { s with image_query := some q } :: rest
    else s :: addImageHintsFallback q rest

/-- `_add_image_hints(slides, topic, subject, max_hints=3)` as a function
on the handed slide list. -/
def addImageHints (slides : List Slide) (topic subject : Str) (maxHints : Nat) :
    List Slide :=
  let r := addImageHintsScan topic subject maxHints 0 false slides
  if r.2 then r.1
  else addImageHintsFallback (archQuery topic subject) r.1

/-- Merge an updated filtered view back into the full slide list: the i-th
slide satisfying `included` is replaced by the i-th element of the view
(Python list aliasing made explicit).  The view never shrinks, so the
empty-view case for an included slide is unreachable. -/
def mergeBack (included : Slide → Bool) : List Slide → List Slide → List Slide
  | [], _ => []
  | s :: rest, hs =>
    if included s then
      match hs with
      | [] => s :: rest
      | h :: hs2 => h :: mergeBack included rest hs2
    else s :: mergeBack included rest hs

/-! ## Mode 1 assembly (`_generate_mode_1`, `_get_default_slide_titles`) -/

/-- The five canonical default titles of `_get_default_slide_titles`. -/
def defaultTitleList : List Str :=
  [str "Introduction", str "Core Concept / Architecture",
   str "Mathematical / Logical Explanation", str "Applications / Use Cases",
   str "Summary & Key Takeaways"]

/-- Decimal print of a number (for the `f"Key Concept {i}"` template). -/
def natToStr (n : Nat) : Str := (Nat.repr n).data

/-- `_get_default_slide_titles` (source lines 766-783): note the loop is
`for i in range(1, min(num_slides + 1, len(default_titles) + 1))`, so `i`
never exceeds 5 and the `"Key Concept {i}"` branch (kept below for
fidelity) is unreachable — at most five titles are ever produced. -/
def getDefaultSlideTitles (numSlides : Nat) : List TitleInfo :=
  (List.range' 1 (min (numSlides + 1) (defaultTitleList.length + 1) - 1)).map
    fun i =>
      if i ≤ defaultTitleList.length then
        { slide_number := i, title := defaultTitleList.getD (i - 1) [] }
      else
        { slide_number := i, title := str "Key Concept " ++ natToStr i }

/-- The content-slide dict built per default title in `_generate_mode_1`. -/
def mkMode1Slide (g : GenOracle) (p : ParsedRequest) (t : TitleInfo) : Slide :=
  { slide_number := t.slide_number + 1
    slide_type := str "content"
    title := t.title
    content := generateSingleSlideContent g t.slide_number t.title p.topic p.subject
    speaker_notes := str "Explain " ++ t.title ++ str " in the context of "
      ++ p.topic ++ str "." }

/-- Inclusion predicate of Mode 1's image-hint view:
`[s for s in slides if s.get('slide_number', 0) > 1]`. -/
def mode1HintIncluded (s : Slide) : Bool := decide (1 < s.slide_number)

/-- `_generate_mode_1` (source lines 901-949): default titles, generated
content, base slide at the front, image hints over the user-slide view,
then content shaping.  The function is total — no error path exists. -/
def generateMode1 (g : GenOracle) (p : ParsedRequest) : PPTResult :=
  let userSlides := (getDefaultSlideTitles p.number).map (mkMode1Slide g p)
  let slides := baseSlide p.topic p.subject :: userSlides
  let hinted := addImageHints (slides.filter mode1HintIncluded) p.topic p.subject 3
  let slides := mergeBack mode1HintIncluded slides hinted
  enforceBulletConstraints false
    { presentation_title := p.topic
      presentation_subtitle := subjectOrDefault p.subject
      slides := slides }

/-! ## Mode 2: count reconciliation (`_parse_mode_2`, lines 205-239) and
assembly (`_generate_mode_2`, lines 951-1100) -/

/-- Stable insertion used by `sortTitles` (Python `list.sort` is stable:
an element moves before another only when its key is strictly smaller). -/
def insertTitle (t : TitleInfo) : List TitleInfo → List TitleInfo
  | [] => [t]
  | u :: us =>
    if t.slide_number ≤ u.slide_number then t :: u :: us
    else u :: insertTitle t us

/-- `slide_titles.sort(key=lambda x: x['slide_number'])` (stable). -/
def sortTitles : List TitleInfo → List TitleInfo
  | [] => []
  | t :: ts => insertTitle t (sortTitles ts)

/-- Duplicate removal keeping the first occurrence per slide number
(`seen` set loop of `_parse_mode_2` lines 209-215). -/
def dedupTitlesGo (seen : List Nat) : List TitleInfo → List TitleInfo
  | [] => []
  | t :: ts =>
    if t.slide_number ∈ seen then dedupTitlesGo seen ts
    else t :: dedupTitlesGo (t.slide_number :: seen) ts

/-- Deduplication entry point. -/
def dedupTitles (ts : List TitleInfo) : List TitleInfo := dedupTitlesGo [] ts

/-- `max(t['slide_number'] for t in slide_titles)` (0 on an empty list,
which the source never reaches). -/
def maxSlideNum (ts : List TitleInfo) : Nat :=
  ts.foldl (fun m t => max m t.slide_number) 0

/-- Count reconciliation of `_parse_mode_2` lines 217-239: raise the
declared count to the observed maximum slide number; error when fewer
titles than the reconciled count were found; when more were found keep
only titles with `slide_number <= number`; finally error when no titles
remain.  Returns the reconciled `(number, slide_titles)`. -/
def reconcileMode2 (number : Nat) (ts : List TitleInfo) :
    Except Str (Nat × List TitleInfo) :=
  if ts.isEmpty then
    .error (str "Mode 2 requires slide titles in the Slide titles section. No titles were found.")
  else if ts.length < max number (maxSlideNum ts) then
    .error (str "Mode 2 requires exactly the requested number of slide titles; fewer were found.")
  else if max number (maxSlideNum ts) < ts.length then
    if (ts.filter (fun t => t.slide_number ≤ max number (maxSlideNum ts))).isEmpty then
      .error (str "Mode 2 requires slide titles in the Slide titles section. No titles were found.")
    else .ok (max number (maxSlideNum ts),
              ts.filter (fun t => t.slide_number ≤ max number (maxSlideNum ts)))
  else .ok (max number (maxSlideNum ts), ts)

/-- The content-slide dict built per user title in `_generate_mode_2`
(title assigned directly from the user title, then locked; the in-loop
assertions compare the just-assigned title with itself and cannot fire). -/
def mkMode2Slide (g : GenOracle) (p : ParsedRequest) (t : TitleInfo) : Slide :=
  { slide_number := t.slide_number + 1
    slide_type := str "content"
    title := t.title
    content := generateSingleSlideContent g t.slide_number t.title p.topic p.subject
    speaker_notes := str "Explain " ++ t.title ++ str " in the context of "
      ++ p.topic ++ str "."
    title_locked := true
    original_title := some t.title }

/-- The `user_titles_dict` lookup of `_generate_mode_2`: a dict built by
insertion over `slide_titles` (later duplicates overwrite earlier ones). -/
def titleDictGet (ts : List TitleInfo) (n : Nat) : Option Str :=
  ((ts.filter (fun t => t.slide_number == n)).getLast?).map TitleInfo.title

/-- One title-verification sweep of `_generate_mode_2` (run before and
after content shaping): every slide beyond the base must carry exactly
the user title recorded for its user slide number, when one exists. -/
def titleVerify (ts : List TitleInfo) (slides : List Slide) : Bool :=
  slides.all fun s =>
    if 1 < s.slide_number then
      match titleDictGet ts (s.slide_number - 1) with
      | some expected => s.title == expected
      | none => true
    else true

/-- `_generate_mode_2` (source lines 951-1100): validation (nonempty
titles, count match), one content slide per user title in order, slide
count checks before and after inserting the base slide, title
verification before and after content shaping (no image hints in
Mode 2). -/
def generateMode2 (g : GenOracle) (p : ParsedRequest) : Except Str PPTResult :=
  if p.slide_titles.isEmpty then
    .error (str "Mode 2 requires slide titles. No titles were extracted from the prompt.")
  else if p.slide_titles.length ≠ p.number then
    .error (str "Mode 2 requires exactly the requested number of slide titles.")
  else
    let userSlides := p.slide_titles.map (mkMode2Slide g p)
    if userSlides.length ≠ p.number then
      .error (str "Mode 2 generation error: wrong number of content slides.")
    else
      let slides := baseSlide p.topic p.subject :: userSlides
      if slides.length ≠ p.number + 1 then
        .error (str "Mode 2 final slide count mismatch.")
      else if !(titleVerify p.slide_titles slides) then
        .error (str "Mode 2 title mismatch. User titles are LAW.")
      else
        let result := enforceBulletConstraints false
          { presentation_title := p.topic
            presentation_subtitle := subjectOrDefault p.subject
            slides := slides
            mode2TitlePure := true }
        if !(titleVerify p.slide_titles result.slides) then
          .error (str "Mode 2 title modified by content shaping.")
        else .ok result

/-! ## Mode 3 assembly (`_generate_mode_3`, lines 1102-1147) -/

/-- The content-slide dict built per exact-content record: content copied
verbatim into the dict — but note no `_is_exact_content` flag is set. -/
def mkMode3Slide (e : ExactSlide) : Slide :=
  { slide_number := e.slide_number + 1
    slide_type := str "content"
    title := e.title
    content := e.content
    speaker_notes := str "Present the exact content provided for " ++ e.title ++ str "." }

/-- `_generate_mode_3`: validation, verbatim slides, base slide, then
`_enforce_bullet_constraints(result)` — called WITHOUT
`_mode_5_exact_guard=True`, so the shaping pass runs over the
exact-content slides too.  No image hints, no count checks. -/
def generateMode3 (p : ParsedRequest) : Except Str PPTResult :=
  if p.exact_content.isEmpty then
    .error (str "Mode 3 requires exact content. No content was extracted from the prompt.")
  else
    let slides := baseSlide p.topic p.subject :: p.exact_content.map mkMode3Slide
    .ok (enforceBulletConstraints false
      { presentation_title := p.topic
        presentation_subtitle := subjectOrDefault p.subject
        slides := slides })

/-! ## Mode 4 assembly (`_generate_mode_4`, lines 1149-1237) -/

/-- The content-slide dict built per user title in `_generate_mode_4`;
the image-mapping loop assigns `image_number` once per matching mapping,
so the last matching mapping wins. -/
def mkMode4Slide (g : GenOracle) (p : ParsedRequest) (t : TitleInfo) : Slide :=
  let s : Slide :=
    { slide_number := t.slide_number + 1
      slide_type := str "content"
      title := t.title
      content := generateSingleSlideContent g t.slide_number t.title p.topic p.subject
      speaker_notes := str "Explain " ++ t.title ++ str " in the context of "
        ++ p.topic ++ str "." }
  match (p.image_mappings.filter (fun m => m.slide_number == t.slide_number)).getLast? with
  | some m => { s with image_number := some m.image_number }
  | none => s

/-- `_generate_mode_4`: validation (nonempty titles, count match), one
content slide per user title with user-specified images only, count check,
base slide, then content shaping.  No auto image hints. -/
def generateMode4 (g : GenOracle) (p : ParsedRequest) : Except Str PPTResult :=
  if p.slide_titles.isEmpty then
    .error (str "Mode 4 requires slide titles. No titles were extracted from the prompt.")
  else if p.slide_titles.length ≠ p.number then
    .error (str "Mode 4 requires exactly the requested number of slide titles.")
  else
    let userSlides := p.slide_titles.map (mkMode4Slide g p)
    if userSlides.length ≠ p.number then
      .error (str "Mode 4 generation error: wrong number of slides.")
    else
      let slides := baseSlide p.topic p.subject :: userSlides
      .ok (enforceBulletConstraints false
        { presentation_title := p.topic
          presentation_subtitle := subjectOrDefault p.subject
          slides := slides })

/-! ## Mode 5 extraction (`_parse_mode_5`, lines 534-689) -/

/-- Matcher for `Slide\s+(\d+):` at the head of `s` (case-insensitive):
returns the captured number. -/
def slideMarkerAt (s : Str) : Option Nat :=
  if startsWithCI (str "slide") s then
    match dropWs1 (s.drop 5) with
    | some r =>
      let ds := r.takeWhile Char.isDigit
      if ds.isEmpty then none
      else
        match r.dropWhile Char.isDigit with
        | ':' :: _ => some (digitsToNat ds)
        | _ => none
    | none => none
  else none

/-- All `(position, slideNumber)` matches of `Slide\s+(\d+):` in `s`.
(The pattern cannot overlap itself, so scanning every position agrees
with `re.finditer`.) -/
def findMarkersAux : Nat → Str → List (Nat × Nat)
  | _, [] => []
  | i, s@(_ :: rest) =>
    match slideMarkerAt s with
    | some n => (i, n) :: findMarkersAux (i + 1) rest
    | none => findMarkersAux (i + 1) rest

/-- Cut the instructions text into per-slide blocks, each running from its
`Slide N:` match start to the next match start (or end of text). -/
def splitBlocksAux (text : Str) : List (Nat × Nat) → List (Nat × Str)
  | [] => []
  | (i, n) :: rest =>
    let stop := match rest with | (j, _) :: _ => j | [] => text.length
    (n, (text.drop i).take (stop - i)) :: splitBlocksAux text rest

/-- `re.finditer(r'Slide\s+(\d+):', instructions_text)` block splitting. -/
def splitSlideBlocks (text : Str) : List (Nat × Str) :=
  splitBlocksAux text (findMarkersAux 0 text)

/-- `re.search(r'Slide\s+instructions:\s*(.*?)$', prompt, IGNORECASE |
DOTALL)`: everything after the first `Slide instructions:` marker with
leading whitespace skipped.  (The `$` may exclude one trailing newline;
a trailing newline only adds an empty final line, which every downstream
step ignores, so we keep the full remainder.) -/
def locateInstrSection : Str → Option Str
  | [] => none
  | s@(_ :: rest) =>
    if startsWithCI (str "slide") s then
      match dropWs1 (s.drop 5) with
      | some r =>
        if startsWithCI (str "instructions:") r then
          some ((r.drop 13).dropWhile isPyWs)
        else locateInstrSection rest
      | none => locateInstrSection rest
    else locateInstrSection rest

/-- `re.search(r'Title:\s*([^\n]+)', block, IGNORECASE)` followed by
`.strip()`: after the first viable `Title:`, skip whitespace (which may
cross newlines) and capture the rest of that line; a whitespace-only
remainder with some non-newline character still matches (regex
backtracking) and strips to the empty title. -/
def searchTitleLine : Str → Option Str
  | [] => none
  | s@(_ :: rest) =>
    if startsWithCI (str "title:") s then
      let after := s.drop 6
      let nonWs := after.dropWhile isPyWs
      if !nonWs.isEmpty then some (pyStrip (nonWs.takeWhile (fun c => c ≠ '\n')))
      else if after.any (fun c => c ≠ '\n') then some []
      else searchTitleLine rest
    else searchTitleLine rest

/-- `re.search(r'Use\s+Image\s+(\d+)', block, IGNORECASE)`: first match's
captured number. -/
def useImageAt (s : Str) : Option Nat :=
  if startsWithCI (str "use") s then
    match dropWs1 (s.drop 3) with
    | some r =>
      if startsWithCI (str "image") r then
        match dropWs1 (r.drop 5) with
        | some r2 =>
          let ds := r2.takeWhile Char.isDigit
          if ds.isEmpty then none else some (digitsToNat ds)
        | none => none
      else none
    | none => none
  else none

/-- Scan a block for the first `Use Image N` occurrence. -/
def scanUseImage : Str → Option Nat
  | [] => none
  | s@(_ :: rest) =>
    match useImageAt s with
    | some n => some n
    | none => scanUseImage rest

/-- Python `content_section.split('\n')` (keeps empty pieces). -/
def splitLinesAux (cur : Str) : Str → List Str
  | [] => [cur.reverse]
  | c :: rest =>
    if c == '\n' then cur.reverse :: splitLinesAux [] rest
    else splitLinesAux (c :: cur) rest

/-- Split text into lines at newline characters. -/
def splitLines (s : Str) : List Str := splitLinesAux [] s

/-- `re.match(r'^\s*Slide\s+\d+:', line_stripped, IGNORECASE)`: the
next-slide-block stop condition of the bullet loop. -/
def isSlideStartLine (ls : Str) : Bool :=
  (slideMarkerAt (ls.dropWhile isPyWs)).isSome

/-- The bullet-marker stripping cascade of `_parse_mode_5` lines 618-627. -/
def stripBulletMarker (ls : Str) : Str :=
  if startsWithStr (str "- ") ls then pyStrip (ls.drop 2)
  else if startsWithStr (str "-") ls then pyStrip (ls.drop 1)
  else if startsWithStr (str "• ") ls then pyStrip (ls.drop 2)
  else if startsWithStr (str "•") ls then pyStrip (ls.drop 1)
  else ls

/-- The bullet-collection loop over the lines after `use exact content:`
(source lines 604-630): stop at a next slide block or an image
instruction line; keep only lines starting with `-` or `•`, stripped of
their marker, when nonempty. -/
def collectBullets : List Str → List Str
  | [] => []
  | line :: rest =>
    let ls := pyStrip line
    if isSlideStartLine ls then []
    else if startsWithStr (str "use image") (lowerStr ls) || lowerStr ls == str "no image" then []
    else if startsWithStr (str "-") ls || startsWithStr (str "•") ls then
      let b := stripBulletMarker ls
      if b.isEmpty then collectBullets rest else b :: collectBullets rest
    else collectBullets rest

/-- Per-block parsing of `_parse_mode_5` (lines 571-669): a block without
a `Title:` is skipped (`.ok none`); `should_generate` from the
`generate content` phrase; exact content collected after the
`use exact content:` marker with a HARD FAIL when zero bullets parse;
image intent `UPLOAD` on a `Use Image N` match, else `NONE` on the
`no image` phrase, else `QUERY`. -/
def parseMode5Block (num : Nat) (block : Str) : Except Str (Option SlideInstr) :=
  match searchTitleLine block with
  | none => .ok none
  | some title =>
    let lowerB := lowerStr block
    let shouldGen := containsSub (str "generate content") lowerB
    let exactRes : Except Str (Option (List Str)) :=
      if !shouldGen && containsSub (str "exact content") lowerB then
        match findSubIdx (str "use exact content:") lowerB with
        | some i =>
          let contentSection := block.drop (i + (str "use exact content:").length)
          let bullets := collectBullets (splitLines contentSection)
          if bullets.isEmpty then
            .error (str "Mode 5 EXACT content declared but no bullets parsed. EXACT content is required when Use EXACT content: is specified.")
          else .ok (some bullets)
        | none => .ok none
      else .ok none
    match exactRes with
    | .error e => .error e
    | .ok ec =>
      let (imgNum, imgMode) :=
        match scanUseImage block with
        | some n => (some n, str "UPLOAD")
        | none =>
          if containsSub (str "no image") lowerB then ((none : Option Nat), str "NONE")
          else (none, str "QUERY")
      .ok (some
        { slide_number := num
          title := title
          should_generate := shouldGen
          exact_content := ec
          image_number := imgNum
          image_mode := imgMode
          no_image := imgMode == str "NONE" })

/-- The block loop of `_parse_mode_5`: blocks processed in order, a
block's hard failure aborts the whole extraction, skipped blocks add
nothing. -/
def parseMode5Blocks : List (Nat × Str) → Except Str (List SlideInstr)
  | [] => .ok []
  | (n, b) :: rest =>
    match parseMode5Block n b with
    | .error e => .error e
    | .ok none => parseMode5Blocks rest
    | .ok (some ins) =>
      match parseMode5Blocks rest with
      | .error e => .error e
      | .ok l => .ok (ins :: l)

/-- Instruction extraction of `_parse_mode_5` from the raw prompt: locate
the `Slide instructions:` section, split it into blocks, parse each (no
section yields no instructions). -/
def parseMode5Instructions (prompt : Str) : Except Str (List SlideInstr) :=
  match locateInstrSection prompt with
  | none => .ok []
  | some sec => parseMode5Blocks (splitSlideBlocks sec)

/-! ## Mode 5 assembly (`_generate_mode_5`, lines 1239-1418) -/

/-- The initial slide dict built per instruction (lines 1266-1277): the
image-mode flag is always stored on the slide for downstream
enforcement. -/
def mode5InitSlide (topic : Str) (ins : SlideInstr) : Slide :=
  { slide_number := ins.slide_number + 1
    slide_type := str "content"
    title := ins.title
    content := []
    speaker_notes := str "Present " ++ ins.title ++ str " in the context of "
      ++ topic ++ str "."
    mode5_image_mode := some ins.image_mode }

/-- Image-instruction application (lines 1279-1290): `image_number` only
on `UPLOAD` with a truthy (nonzero) number, the `_no_image` flag on
`NONE`, nothing on `QUERY`. -/
def mode5ApplyImage (ins : SlideInstr) (s : Slide) : Slide :=
  if ins.image_mode == str "UPLOAD" then
    match ins.image_number with
    | some n => if n ≠ 0 then { s with image_number := some n } else s
    | none => s
  else if ins.image_mode == str "NONE" then { s with no_image := true }
  else s

/-- Content injection/generation (lines 1292-1322): exact content
verbatim with the `_is_exact_content` flag, generated content when asked,
empty content otherwise.  (The in-branch re-check that exact content is
nonempty cannot fire: the branch condition requires a nonempty list.) -/
def mode5ApplyContent (g : GenOracle) (topic subject : Str) (ins : SlideInstr)
    (s : Slide) : Slide :=
  if !ins.should_generate
      && (match ins.exact_content with | some (_ :: _) => true | _ => false) then
    { s with content := ins.exact_content.getD [], is_exact_content := true }
  else if ins.should_generate then
    { s with
        content := generateSingleSlideContent g ins.slide_number ins.title topic subject
        is_exact_content := false }
  else
    { s with content := [], is_exact_content := false }

def buildMode5Slide (g : GenOracle) (topic subject : Str) (ins : SlideInstr) : Slide :=
  mode5ApplyContent g topic subject ins (mode5ApplyImage ins (mode5InitSlide topic ins))

/-- Inclusion predicate of Mode 5's image-hint view (lines 1351-1359):
user slides whose image mode is not `NONE` and which carry no uploaded
image. -/
def mode5HintIncluded (s : Slide) : Bool :=
  decide (1 < s.slide_number)
    && !((s.mode5_image_mode.getD (str "QUERY")) == str "NONE")
    && s.image_number == none

/-- Bullet-list comparison of the Mode-5 exact-content verification:
equal length and strip-equal bullets. -/
def bulletsMatchStrip : List Str → List Str → Bool
  | [], [] => true
  | e :: es, a :: bs => (pyStrip e == pyStrip a) && bulletsMatchStrip es bs
  | _, _ => false

/-- The post-shaping EXACT-content verification loop (lines 1378-1414):
for each exact instruction, the first final slide carrying its shifted
slide number must hold strip-identical bullets. -/
def verifyMode5Exact : List SlideInstr → List Slide → Option Str
  | [], _ => none
  | ins :: rest, slides =>
    let isExact := !ins.should_generate
        && (match ins.exact_content with | some (_ :: _) => true | _ => false)
    if isExact then
      match slides.find? (fun s => s.slide_number == ins.slide_number + 1) with
      | some s =>
        if bulletsMatchStrip (ins.exact_content.getD []) s.content then
          verifyMode5Exact rest slides
        else some (str "MODE 5 EXACT CONTENT violation: exact content was modified.")
      | none => verifyMode5Exact rest slides
    else verifyMode5Exact rest slides

/-- `_generate_mode_5`: build one slide per instruction, count lock before
and after the base slide, image hints over the filtered view (skipping
`NONE`/uploaded-image slides), content shaping WITH the exact guard,
count re-check, then the exact-content verification. -/
def generateMode5 (g : GenOracle) (p : ParsedRequest) : Except Str PPTResult :=
  let instrs := p.slide_instructions
  let expectedUser := instrs.length
  let expectedTotal := 1 + expectedUser
  let userSlides := instrs.map (buildMode5Slide g p.topic p.subject)
  if userSlides.length ≠ expectedUser then
    .error (str "MODE 5 SLIDE COUNT LOCK violation on user slides.")
  else
    let slides := baseSlide p.topic p.subject :: userSlides
    if slides.length ≠ expectedTotal then
      .error (str "MODE 5 SLIDE COUNT LOCK violation on total slides.")
    else
      let hinted := addImageHints (slides.filter mode5HintIncluded) p.topic p.subject 3
      let slides := mergeBack mode5HintIncluded slides hinted
      let result := enforceBulletConstraints true
        { presentation_title := p.topic
          presentation_subtitle := subjectOrDefault p.subject
          slides := slides }
      if result.slides.length ≠ expectedTotal then
        .error (str "MODE 5 SLIDE COUNT LOCK violation after bullet constraints.")
      else
        match verifyMode5Exact instrs result.slides with
        | some e => .error e
        | none => .ok result

/-! ## Concrete instances used to evaluate the definitions -/

/-- A Mode-3 parsed request whose single slide carries eleven exact
content lines (as extracted from an instruction such as `Use EXACT
content, do NOT modify. Slide 1: Title: A Content:` followed by eleven
bullet lines). -/
def c1Parsed : ParsedRequest :=
  { number := 1, topic := str "T", subject := str "S"
    exact_content :=
      [{ slide_number := 1, title := str "A"
         content := [str "b1", str "b2", str "b3", str "b4", str "b5", str "b6",
                     str "b7", str "b8", str "b9", str "b10", str "b11"] }] }

/-- A Mode-1 parsed request declaring eight slides (from an instruction
such as `Create a 8-slide PPT on T. Subject: S. Use a default slide
structure.`). -/
def c5Parsed : ParsedRequest := { number := 8, topic := str "T", subject := str "S" }

/-- A valid Mode-2 parsed request: two slides, titles for slides 1 and 2. -/
def c2Parsed : ParsedRequest :=
  { number := 2, topic := str "T", subject := str "S"
    slide_titles := [{ slide_number := 1, title := str "Intro" },
                     { slide_number := 2, title := str "Data" }] }

/-- Deduplicated sorted titles for user slides 1 through 7. -/
def c6Titles : List TitleInfo :=
  [{ slide_number := 1, title := str "T1" }, { slide_number := 2, title := str "T2" },
   { slide_number := 3, title := str "T3" }, { slide_number := 4, title := str "T4" },
   { slide_number := 5, title := str "T5" }, { slide_number := 6, title := str "T6" },
   { slide_number := 7, title := str "T7" }]

/-- The Mode-2 parsed request produced from `c6Titles` after count
reconciliation raised the declared count 5 to the observed maximum 7. -/
def c6Parsed : ParsedRequest :=
  { number := 7, topic := str "T", subject := str "S", slide_titles := c6Titles }

/-- A Mode-5 slide block declaring `Use EXACT content:` that is followed
by no `-`/`•` line at all. -/
def c7BadBlock : Str :=
  str "Slide 2: Title: Beta" ++ ['\n'] ++ str "Use EXACT content:" ++ ['\n']
    ++ str "nothing bulleted here"

/-- A full MixedControl instruction whose second block declares EXACT
content with zero bullets while the first block is valid. -/
def c7Prompt : Str :=
  str "Create a 2 slide PPT on T. Subject: S. Slide instructions:" ++ ['\n']
    ++ str "Slide 1: Title: Alpha" ++ ['\n'] ++ str "Generate content." ++ ['\n']
    ++ c7BadBlock

/-- A Mode-5 slide block declaring `no image` (and no `Use Image N`). -/
def c8Block : Str :=
  str "Slide 1: Title: Gamma" ++ ['\n'] ++ str "Generate content." ++ ['\n']
    ++ str "no image"

/-- The instruction record `parseMode5Block 1 c8Block` produces. -/
def c8Instr : SlideInstr :=
  { slide_number := 1, title := str "Gamma", should_generate := true
    exact_content := none, image_number := none
    image_mode := str "NONE", no_image := true }

/-- A Mode-5 parsed request carrying the `no image` instruction. -/
def c8Parsed : ParsedRequest :=
  { number := 1, topic := str "T", subject := str "S"
    slide_instructions := [c8Instr] }

/-- A default slide value (used only to project concrete computations). -/
def emptySlide : Slide :=
  { slide_number := 0, slide_type := [], title := [], content := [], speaker_notes := [] }

/-- The result `generateMode5 alwaysRaiseGen c8Parsed` computes to. -/
def c8Result : PPTResult :=
  match generateMode5 alwaysRaiseGen c8Parsed with
  | .ok r => r
  | .error _ =>
    { presentation_title := [], presentation_subtitle := [], slides := [] }

/-- The assembled user slide of `c8Result` (position 1, slide number 2). -/
def c8FinalSlide : Slide := c8Result.slides.getD 1 emptySlide

/-- A plain content slide with no image fields set. -/
def mkPlainSlide (n : Nat) (t : Str) : Slide :=
  { slide_number := n, slide_type := str "content", title := t
    content := [], speaker_notes := [] }

/-- Four content slides: the first matches no hint pattern, the next
three are intro-titled.  The scan assigns three overview hints, finds no
architecture slide, and the fallback then hints the first content slide —
four hinted slides in total. -/
def c9Slides : List Slide :=
  [mkPlainSlide 2 (str "Plain facts"),
   mkPlainSlide 3 (str "Intro one"),
   mkPlainSlide 4 (str "Intro two"),
   mkPlainSlide 5 (str "Intro three")]

/-- How many slides of a list carry an `image_query`. -/
def countQueries (l : List Slide) : Nat :=
  (l.filter (fun s => s.image_query.isSome)).length

/-- Raw extracted titles with a duplicate slide number. -/
def c10Titles : List TitleInfo :=
  [{ slide_number := 1, title := str "A" }, { slide_number := 1, title := str "B" },
   { slide_number := 2, title := str "C" }]

/-! ## Claim theorems -/

/-- C1.  The exact-content round trip FAILS on the code: `_generate_mode_3`
pipes its slides through `_enforce_bullet_constraints` without the exact
guard and never sets an `_is_exact_content` bypass flag, so a Mode-3
slide whose extracted exact content has eleven lines ends up with only
ten content lines in the assembled output (and over-long bullets would be
truncated).  The evaluation below exhibits this on `c1Parsed`: eleven
extracted lines, ten assembled, and no slide carries the bypass flag. -/
theorem spec_C1_mode3_shaping_applies :
    (generateMode3 c1Parsed).map (fun r => r.slides.map fun s => s.content.length)
        = .ok [1, 10]
    ∧ (c1Parsed.exact_content.map fun e => e.content.length) = [11]
    ∧ (generateMode3 c1Parsed).map (fun r => r.slides.map fun s => s.is_exact_content)
        = .ok [false, false] :=
  ⟨rfl, rfl, rfl⟩

/-- C5.  Fallback robustness FAILS on the code for declared counts above
five: with an always-raising bullet generator every generated slide does
fall back to exactly eight templated bullets and no error reaches the
caller (`generateMode1` is total), but `_get_default_slide_titles` caps
the default titles at five (`min(num_slides + 1, 6)` makes the
`Key Concept` branch unreachable), so a request declaring eight slides
returns six slides, not nine. -/
theorem spec_C5_fallback_slide_count :
    (generateMode1 alwaysRaiseGen c5Parsed).slides.length = 6
    ∧ c5Parsed.number + 1 = 9
    ∧ ((generateMode1 alwaysRaiseGen c5Parsed).slides.drop 1).all
        (fun s => s.content.length == 8) = true :=
  ⟨rfl, rfl, rfl⟩

/-- C9 counterexample.  The image-hint step can mark FOUR slides: on
`c9Slides` the scan hints the three intro-titled slides, finds no
architecture-like slide, and the fallback then hints the first content
slide (which the scan had left bare) — so more than 3 slides receive an
`imageQuery`, refuting the claimed bound of at most 3. -/
theorem spec_C9_counterexample :
    ¬ (countQueries (addImageHints c9Slides (str "t") (str "s") 3) ≤ 3) := by
  decide

/-! ## Supporting lemmas: sorting, deduplication, maxima -/

theorem foldl_max_le_acc (ts : List TitleInfo) (acc : Nat) :
    acc ≤ ts.foldl (fun m t => max m t.slide_number) acc := by
  induction ts generalizing acc with
  | nil => exact Nat.le_refl acc
  | cons t ts ih => exact Nat.le_trans (Nat.le_max_left acc t.slide_number) (ih _)

theorem le_foldl_max (ts : List TitleInfo) (acc : Nat) :
    ∀ t ∈ ts, t.slide_number ≤ ts.foldl (fun m t => max m t.slide_number) acc := by
  induction ts generalizing acc with
  | nil => intro t h; cases h
  | cons u ts ih =>
    intro t h
    rcases List.mem_cons.1 h with rfl | h2
    · exact Nat.le_trans (Nat.le_max_right acc t.slide_number) (foldl_max_le_acc ts _)
    · exact ih _ t h2

/-- Every title's slide number is bounded by the running maximum the
source computes. -/
theorem le_maxSlideNum (ts : List TitleInfo) : ∀ t ∈ ts, t.slide_number ≤ maxSlideNum ts :=
  le_foldl_max ts 0

theorem mem_insertTitle (t x : TitleInfo) (l : List TitleInfo)
    (h : x ∈ insertTitle t l) : x = t ∨ x ∈ l := by
  induction l with
  | nil =>
    simp only [insertTitle] at h
    rcases List.mem_singleton.1 h with rfl
    exact Or.inl rfl
  | cons u us ih =>
    simp only [insertTitle] at h
    split at h
    · rcases List.mem_cons.1 h with rfl | h2
      · exact Or.inl rfl
      · exact Or.inr h2
    · rcases List.mem_cons.1 h with rfl | h2
      · exact Or.inr (List.mem_cons_self _ _)
      · rcases ih h2 with rfl | h3
        · exact Or.inl rfl
        · exact Or.inr (List.mem_cons_of_mem _ h3)

theorem mem_sortTitles (x : TitleInfo) (ts : List TitleInfo)
    (h : x ∈ sortTitles ts) : x ∈ ts := by
  induction ts with
  | nil => cases h
  | cons t ts ih =>
    simp only [sortTitles] at h
    rcases mem_insertTitle t x _ h with rfl | h2
    · exact List.mem_cons_self _ _
    · exact List.mem_cons_of_mem _ (ih h2)

theorem mem_dedupGo (seen : List Nat) (ts : List TitleInfo) (x : TitleInfo)
    (h : x ∈ dedupTitlesGo seen ts) : x ∈ ts := by
  induction ts generalizing seen with
  | nil => cases h
  | cons t ts ih =>
    simp only [dedupTitlesGo] at h
    split at h
    · exact List.mem_cons_of_mem _ (ih _ h)
    · rcases List.mem_cons.1 h with rfl | h2
      · exact List.mem_cons_self _ _
      · exact List.mem_cons_of_mem _ (ih _ h2)

/-- The first-occurrence deduplication loop produces pairwise distinct
slide numbers, none of them in the `seen` set it started from. -/
theorem dedupGo_nums (seen : List Nat) (ts : List TitleInfo) :
    ((dedupTitlesGo seen ts).map TitleInfo.slide_number).Nodup
    ∧ ∀ n ∈ (dedupTitlesGo seen ts).map TitleInfo.slide_number, n ∉ seen := by
  induction ts generalizing seen with
  | nil => exact ⟨List.nodup_nil, by intro n h; cases h⟩
  | cons t ts ih =>
    by_cases h : t.slide_number ∈ seen
    · simpa only [dedupTitlesGo, if_pos h] using ih seen
    · obtain ⟨hnd, hns⟩ := ih (t.slide_number :: seen)
      simp only [dedupTitlesGo, if_neg h, List.map_cons]
      constructor
      · exact List.nodup_cons.2
          ⟨fun hmem => (hns _ hmem) (List.mem_cons_self _ _), hnd⟩
      · intro n hn hnseen
        rcases List.mem_cons.1 hn with rfl | hn2
        · exact h hnseen
        · exact (hns n hn2) (List.mem_cons_of_mem _ hnseen)

/-- Pigeonhole for the reconciliation bound: a duplicate-free list of
numbers each between 1 and `m` has at most `m` elements. -/
theorem nodup_bounded_length (l : List Nat) (m : Nat) (hnd : l.Nodup)
    (h1 : ∀ n ∈ l, 1 ≤ n) (h2 : ∀ n ∈ l, n ≤ m) : l.length ≤ m := by
  have hsub : l.toFinset ⊆ Finset.Icc 1 m := by
    intro n hn
    have hmem := List.mem_toFinset.1 hn
    exact Finset.mem_Icc.2 ⟨h1 n hmem, h2 n hmem⟩
  have hcard := Finset.card_le_card hsub
  rw [List.toFinset_card_of_nodup hnd, Nat.card_Icc] at hcard
  omega

/-- C6.  Mode 2 count reconciliation: the declared count is raised to the
maximum extracted slide number; fewer titles than the reconciled count is
a hard error; more titles leads to trimming titles whose slide number
exceeds the count; an equal count is accepted unchanged.  In particular,
declaring 5 slides while titling slides 1..7 is accepted with count 7,
and assembly then yields 7 user slides (8 slides in total). -/
theorem spec_C6_count_reconciliation :
    (∀ (number : Nat) (ds : List TitleInfo), ds ≠ [] →
      (ds.length < max number (maxSlideNum ds) →
        isErr (reconcileMode2 number ds) = true)
      ∧ (max number (maxSlideNum ds) < ds.length →
          reconcileMode2 number ds =
            .ok (max number (maxSlideNum ds),
              ds.filter (fun t => t.slide_number ≤ max number (maxSlideNum ds))))
      ∧ (ds.length = max number (maxSlideNum ds) →
          reconcileMode2 number ds = .ok (max number (maxSlideNum ds), ds)))
    ∧ reconcileMode2 5 c6Titles = .ok (7, c6Titles)
    ∧ (generateMode2 alwaysRaiseGen c6Parsed).map (fun r => r.slides.length) = .ok 8 := by
  refine ⟨?_, rfl, rfl⟩
  intro number ds hne
  have hemp : ds.isEmpty = false := by
    cases ds with
    | nil => exact absurd rfl hne
    | cons a l => rfl
  have hfull : ds.filter (fun t => t.slide_number ≤ max number (maxSlideNum ds)) = ds := by
    refine List.filter_eq_self.2 ?_
    intro t ht
    exact decide_eq_true
      (Nat.le_trans (le_maxSlideNum ds t ht) (Nat.le_max_right number (maxSlideNum ds)))
  refine ⟨?_, ?_, ?_⟩
  · intro hlt
    unfold reconcileMode2
    simp only [hemp, Bool.false_eq_true, if_false, if_pos hlt]
    rfl
  · intro hgt
    unfold reconcileMode2
    simp only [hemp, Bool.false_eq_true, if_false]
    rw [if_neg (by omega), if_pos hgt, hfull, if_neg (by simp [hemp])]
  · intro heq
    unfold reconcileMode2
    simp only [hemp, Bool.false_eq_true, if_false]
    rw [if_neg (by omega), if_neg (by omega)]

/-- C6 witness: a concrete instance of the reconciliation theorem —
declaring 3 slides with a single title is a hard error. -/
theorem spec_C6_witness :
    isErr (reconcileMode2 3 [{ slide_number := 1, title := str "A" }]) = true :=
  (spec_C6_count_reconciliation.1 3 [{ slide_number := 1, title := str "A" }]
    (by decide)).1 (by decide)

/-- C10.  When every extracted slide number is at least 1, after sorting,
first-occurrence deduplication and raising the declared count to the
observed maximum, the number of titles can never exceed the reconciled
count — so the more-titles trim branch is unreachable and reconciliation,
when it succeeds, returns the deduplicated titles unchanged. -/
theorem spec_C10_trim_branch_unreachable :
    ∀ (number : Nat) (ts : List TitleInfo),
      (∀ t ∈ ts, 1 ≤ t.slide_number) →
      (dedupTitles (sortTitles ts)).length
          ≤ max number (maxSlideNum (dedupTitles (sortTitles ts)))
      ∧ ∀ res, reconcileMode2 number (dedupTitles (sortTitles ts)) = .ok res →
          res.2 = dedupTitles (sortTitles ts) := by
  intro number ts hpos
  have hlen : (dedupTitles (sortTitles ts)).length
      ≤ max number (maxSlideNum (dedupTitles (sortTitles ts))) := by
    have hnd := (dedupGo_nums [] (sortTitles ts)).1
    have hb := nodup_bounded_length
      ((dedupTitles (sortTitles ts)).map TitleInfo.slide_number)
      (maxSlideNum (dedupTitles (sortTitles ts))) hnd ?_ ?_
    · rw [List.length_map] at hb
      exact Nat.le_trans hb (Nat.le_max_right _ _)
    · intro n hn
      obtain ⟨t, ht, rfl⟩ := List.mem_map.1 hn
      exact hpos t (mem_sortTitles t ts (mem_dedupGo [] _ t ht))
    · intro n hn
      obtain ⟨t, ht, rfl⟩ := List.mem_map.1 hn
      exact le_maxSlideNum _ t ht
  refine ⟨hlen, ?_⟩
  intro res hres
  unfold reconcileMode2 at hres
  split at hres
  · cases hres
  · split at hres
    · cases hres
    · split at hres
      next hgt => exact absurd hgt (by omega)
      next => cases hres; rfl

/-- C10 witness: the theorem applied to a concrete extracted list with a
duplicate slide number. -/
theorem spec_C10_witness :
    (dedupTitles (sortTitles c10Titles)).length
      ≤ max 2 (maxSlideNum (dedupTitles (sortTitles c10Titles))) :=
  (spec_C10_trim_branch_unreachable 2 c10Titles (by decide)).1

/-! ## Supporting lemmas: shaping preserves slide identity and titles -/

theorem enforceSlide_slide_number (b : Bool) (s : Slide) :
    (enforceSlide b s).slide_number = s.slide_number := by
  unfold enforceSlide; split <;> rfl

theorem enforceSlide_title (b : Bool) (s : Slide) :
    (enforceSlide b s).title = s.title := by
  unfold enforceSlide; split <;> rfl

theorem enforceSlide_image_number (b : Bool) (s : Slide) :
    (enforceSlide b s).image_number = s.image_number := by
  unfold enforceSlide; split <;> rfl

theorem enforceSlide_image_query (b : Bool) (s : Slide) :
    (enforceSlide b s).image_query = s.image_query := by
  unfold enforceSlide; split <;> rfl

theorem enforceSlide_mode5_flag (b : Bool) (s : Slide) :
    (enforceSlide b s).mode5_image_mode = s.mode5_image_mode := by
  unfold enforceSlide; split <;> rfl

/-- With pairwise distinct slide numbers, the `user_titles_dict` lookup of
a member title's own slide number returns exactly that title. -/
theorem titleDictGet_self (ts : List TitleInfo)
    (hnd : (ts.map TitleInfo.slide_number).Nodup) :
    ∀ t ∈ ts, titleDictGet ts t.slide_number = some t.title := by
  induction ts with
  | nil => intro t ht; cases ht
  | cons u us ih =>
    rw [List.map_cons, List.nodup_cons] at hnd
    obtain ⟨hu, hnd⟩ := hnd
    intro t ht
    rcases List.mem_cons.1 ht with rfl | ht2
    · have hfil : us.filter (fun v => v.slide_number == t.slide_number) = [] := by
        refine List.filter_eq_nil_iff.2 ?_
        intro v hv hbeq
        exact hu (beq_iff_eq.1 hbeq ▸ List.mem_map_of_mem TitleInfo.slide_number hv)
      unfold titleDictGet
      rw [List.filter_cons_of_pos (by simp), hfil]
      rfl
    · have hne : (u.slide_number == t.slide_number) = false := by
        refine beq_eq_false_iff_ne.2 ?_
        intro he
        exact hu (he ▸ List.mem_map_of_mem TitleInfo.slide_number ht2)
      unfold titleDictGet
      rw [List.filter_cons_of_neg (by simp [hne])]
      exact ih hnd t ht2

/-- The title-verification sweep passes on any slide list whose user
slides each carry a member title's text at its shifted slide number. -/
theorem titleVerify_sound (ts : List TitleInfo)
    (hnd : (ts.map TitleInfo.slide_number).Nodup) (slides : List Slide)
    (h : ∀ s ∈ slides, 1 < s.slide_number →
      ∃ t ∈ ts, s.slide_number = t.slide_number + 1 ∧ s.title = t.title) :
    titleVerify ts slides = true := by
  unfold titleVerify
  rw [List.all_eq_true]
  intro s hs
  by_cases h1 : 1 < s.slide_number
  · rw [if_pos h1]
    obtain ⟨t, ht, hn, htt⟩ := h s hs h1
    have hsub : s.slide_number - 1 = t.slide_number := by omega
    rw [hsub, titleDictGet_self ts hnd t ht]
    exact beq_iff_eq.2 htt
  · rw [if_neg h1]

/-- Under the Mode-2 validity conditions (titles present, count matching,
distinct slide numbers) `_generate_mode_2` takes no error branch and
returns the shaped assembly. -/
theorem generateMode2_ok (g : GenOracle) (p : ParsedRequest)
    (h1 : p.slide_titles ≠ []) (h2 : p.slide_titles.length = p.number)
    (hnd : (p.slide_titles.map TitleInfo.slide_number).Nodup) :
    generateMode2 g p = .ok (enforceBulletConstraints false
      { presentation_title := p.topic
        presentation_subtitle := subjectOrDefault p.subject
        slides := baseSlide p.topic p.subject :: p.slide_titles.map (mkMode2Slide g p)
        mode2TitlePure := true }) := by
  have hemp : p.slide_titles.isEmpty = false := by
    cases hts : p.slide_titles with
    | nil => exact absurd hts h1
    | cons a l => rfl
  have hv1 : titleVerify p.slide_titles
      (baseSlide p.topic p.subject :: p.slide_titles.map (mkMode2Slide g p)) = true := by
    refine titleVerify_sound _ hnd _ ?_
    intro s hs hgt
    rcases List.mem_cons.1 hs with rfl | hs2
    · exact absurd hgt (by simp [baseSlide])
    · obtain ⟨t, ht, rfl⟩ := List.mem_map.1 hs2
      exact ⟨t, ht, rfl, rfl⟩
  have hv2 : titleVerify p.slide_titles
      ((baseSlide p.topic p.subject :: p.slide_titles.map (mkMode2Slide g p)).map
        (enforceSlide false)) = true := by
    refine titleVerify_sound _ hnd _ ?_
    intro s hs hgt
    obtain ⟨y, hy, rfl⟩ := List.mem_map.1 hs
    rw [enforceSlide_slide_number] at hgt ⊢
    rcases List.mem_cons.1 hy with rfl | hy2
    · exact absurd hgt (by simp [baseSlide])
    · obtain ⟨t, ht, rfl⟩ := List.mem_map.1 hy2
      exact ⟨t, ht, rfl, enforceSlide_title false _⟩
  simp only [generateMode2, hemp, Bool.false_eq_true, if_false]
  rw [if_neg (by omega)]
  rw [if_neg (by simp only [List.length_map]; omega)]
  rw [if_neg (by simp only [List.length_cons, List.length_map]; omega)]
  rw [if_neg (by simp only [hv1, Bool.not_true]; exact Bool.false_ne_true)]
  rw [if_neg (by
    simp only [enforceBulletConstraints]
    simp only [hv2, Bool.not_true]
    exact Bool.false_ne_true)]

/-- Under the Mode-4 validity conditions `_generate_mode_4` takes no
error branch and returns the shaped assembly. -/
theorem generateMode4_ok (g : GenOracle) (p : ParsedRequest)
    (h1 : p.slide_titles ≠ []) (h2 : p.slide_titles.length = p.number) :
    generateMode4 g p = .ok (enforceBulletConstraints false
      { presentation_title := p.topic
        presentation_subtitle := subjectOrDefault p.subject
        slides := baseSlide p.topic p.subject :: p.slide_titles.map (mkMode4Slide g p) }) := by
  have hemp : p.slide_titles.isEmpty = false := by
    cases hts : p.slide_titles with
    | nil => exact absurd hts h1
    | cons a l => rfl
  simp only [generateMode4, hemp, Bool.false_eq_true, if_false]
  rw [if_neg (by omega)]
  rw [if_neg (by simp only [List.length_map]; omega)]

/-- C2.  Title round trip for CustomTitles: for every valid Mode-2 parsed
request with user titles (nonempty, count matching the declared number,
distinct slide numbers — the shape extraction guarantees), the slide at
position `k+1` of the FINAL output (i.e. after content-length shaping)
carries exactly the k-th user title, unchanged. -/
theorem spec_C2_title_roundtrip :
    ∀ (g : GenOracle) (p : ParsedRequest) (k : Nat),
      p.slide_titles ≠ [] → p.slide_titles.length = p.number →
      (p.slide_titles.map TitleInfo.slide_number).Nodup →
      ∀ hk : k < p.slide_titles.length,
      (generateMode2 g p).map (fun r => (r.slides.get? (k + 1)).map Slide.title)
        = .ok (some (p.slide_titles.get ⟨k, hk⟩).title) := by
  intro g p k h1 h2 hnd hk
  rw [generateMode2_ok g p h1 h2 hnd]
  simp only [Except.map, enforceBulletConstraints, List.map_cons]
  rw [List.get?_cons_succ, List.map_map, List.get?_map, List.get?_eq_get hk]
  simp only [Option.map_some', Function.comp_apply, enforceSlide_title]
  rfl

/-- C2 witness: the theorem applied to the concrete two-title request. -/
theorem spec_C2_witness :
    (generateMode2 alwaysRaiseGen c2Parsed).map
        (fun r => (r.slides.get? 1).map Slide.title)
      = .ok (some (str "Intro")) :=
  spec_C2_title_roundtrip alwaysRaiseGen c2Parsed 0 (by decide) (by decide)
    (by decide) (by decide)

/-- C4.  Slide-count invariant: a valid Mode-2 or Mode-4 parsed request
with declared count N and exactly N titles assembles to exactly N+1
slides, and the count is taken on the FINAL output, i.e. after
content-length shaping (which maps slides one-to-one). -/
theorem spec_C4_slide_count :
    ∀ (g : GenOracle) (p : ParsedRequest),
      (p.slide_titles ≠ [] → p.slide_titles.length = p.number →
        (p.slide_titles.map TitleInfo.slide_number).Nodup →
        (generateMode2 g p).map (fun r => r.slides.length) = .ok (p.number + 1))
      ∧ (p.slide_titles ≠ [] → p.slide_titles.length = p.number →
        (generateMode4 g p).map (fun r => r.slides.length) = .ok (p.number + 1)) := by
  intro g p
  constructor
  · intro h1 h2 hnd
    rw [generateMode2_ok g p h1 h2 hnd]
    simp only [Except.map, enforceBulletConstraints, List.length_map, List.length_cons, h2]
  · intro h1 h2
    rw [generateMode4_ok g p h1 h2]
    simp only [Except.map, enforceBulletConstraints, List.length_map, List.length_cons, h2]

/-- C4 witness: the concrete two-title request yields three slides in
both Mode 2 and Mode 4. -/
theorem spec_C4_witness :
    (generateMode2 alwaysRaiseGen c2Parsed).map (fun r => r.slides.length) = .ok 3
    ∧ (generateMode4 alwaysRaiseGen c2Parsed).map (fun r => r.slides.length) = .ok 3 :=
  ⟨(spec_C4_slide_count alwaysRaiseGen c2Parsed).1 (by decide) (by decide) (by decide),
   (spec_C4_slide_count alwaysRaiseGen c2Parsed).2 (by decide) (by decide)⟩

/-! ## Supporting lemmas: the Mode-5 hard fail on empty EXACT content -/

/-- A block with a title, no `generate content` phrase, an `exact
content` phrase, a located `use exact content:` marker and zero parsed
bullets makes the per-block parser error out. -/
theorem parseMode5Block_exact_err (n : Nat) (b t : Str) (i : Nat)
    (ht : searchTitleLine b = some t)
    (hg : containsSub (str "generate content") (lowerStr b) = false)
    (he : containsSub (str "exact content") (lowerStr b) = true)
    (hf : findSubIdx (str "use exact content:") (lowerStr b) = some i)
    (hb : collectBullets (splitLines (b.drop (i + (str "use exact content:").length))) = []) :
    isErr (parseMode5Block n b) = true := by
  simp [parseMode5Block, ht, hg, he, hf, hb, isErr]

/-- An erroring block aborts the whole block loop regardless of the valid
blocks before (which parsed to `l`) and of anything after. -/
theorem parseMode5Blocks_append_err (pre post : List (Nat × Str)) (l : List SlideInstr)
    (n : Nat) (b : Str)
    (hpre : parseMode5Blocks pre = .ok l)
    (hbad : isErr (parseMode5Block n b) = true) :
    isErr (parseMode5Blocks (pre ++ (n, b) :: post)) = true := by
  induction pre generalizing l with
  | nil =>
    rw [List.nil_append]
    cases hpb : parseMode5Block n b with
    | error e => simp [parseMode5Blocks, hpb, isErr]
    | ok o => rw [hpb] at hbad; simp [isErr] at hbad
  | cons hd tl ih =>
    obtain ⟨m, c⟩ := hd
    rw [List.cons_append]
    simp only [parseMode5Blocks] at hpre ⊢
    cases hpb : parseMode5Block m c with
    | error e => rw [hpb] at hpre; cases hpre
    | ok o =>
      rw [hpb] at hpre
      cases o with
      | none => exact ih l hpre
      | some ins =>
        cases htl : parseMode5Blocks tl with
        | error e => rw [htl] at hpre; cases hpre
        | ok l2 =>
          have hrec := ih l2 htl
          cases hrec2 : parseMode5Blocks (tl ++ (n, b) :: post) with
          | error e => simp [hrec2, isErr]
          | ok _ => rw [hrec2] at hrec; simp [isErr] at hrec

/-- C7.  Mode-5 exact-content hard fail: whenever any slide block of a
MixedControl instruction declares `Use EXACT content:` but its following
lines yield zero `-`/`•` bullets, extraction errors out — no matter which
valid blocks precede (they parsed to some list `l`) or follow.  The
second conjunct runs the full extraction on a concrete instruction whose
second block is such a block and whose first block is valid. -/
theorem spec_C7_exact_hard_fail :
    (∀ (pre post : List (Nat × Str)) (l : List SlideInstr) (n : Nat) (b t : Str) (i : Nat),
      parseMode5Blocks pre = .ok l →
      searchTitleLine b = some t →
      containsSub (str "generate content") (lowerStr b) = false →
      containsSub (str "exact content") (lowerStr b) = true →
      findSubIdx (str "use exact content:") (lowerStr b) = some i →
      collectBullets (splitLines (b.drop (i + (str "use exact content:").length))) = [] →
      isErr (parseMode5Blocks (pre ++ (n, b) :: post)) = true)
    ∧ isErr (parseMode5Instructions c7Prompt) = true := by
  constructor
  · intro pre post l n b t i hpre ht hg he hf hb
    exact parseMode5Blocks_append_err pre post l n b hpre
      (parseMode5Block_exact_err n b t i ht hg he hf hb)
  · rfl

/-- C7 witness: the theorem applied to the concrete bad block standing
alone (empty prefix and suffix). -/
theorem spec_C7_witness : isErr (parseMode5Blocks [(2, c7BadBlock)]) = true :=
  spec_C7_exact_hard_fail.1 [] [] [] 2 c7BadBlock (str "Beta") 21 rfl rfl
    (by decide) (by decide) (by decide) (by decide)

/-! ## Supporting lemmas: the Mode-5 image lock -/

theorem mode5ApplyContent_query (g : GenOracle) (topic subject : Str)
    (ins : SlideInstr) (s : Slide) :
    (mode5ApplyContent g topic subject ins s).image_query = s.image_query := by
  unfold mode5ApplyContent; split
  · rfl
  · split <;> rfl

theorem mode5ApplyContent_image_number (g : GenOracle) (topic subject : Str)
    (ins : SlideInstr) (s : Slide) :
    (mode5ApplyContent g topic subject ins s).image_number = s.image_number := by
  unfold mode5ApplyContent; split
  · rfl
  · split <;> rfl

theorem mode5ApplyContent_flag (g : GenOracle) (topic subject : Str)
    (ins : SlideInstr) (s : Slide) :
    (mode5ApplyContent g topic subject ins s).mode5_image_mode = s.mode5_image_mode := by
  unfold mode5ApplyContent; split
  · rfl
  · split <;> rfl

theorem mode5ApplyImage_query (ins : SlideInstr) (s : Slide) :
    (mode5ApplyImage ins s).image_query = s.image_query := by
  unfold mode5ApplyImage; split
  · split
    · split <;> rfl
    · rfl
  · split <;> rfl

theorem mode5ApplyImage_flag (ins : SlideInstr) (s : Slide) :
    (mode5ApplyImage ins s).mode5_image_mode = s.mode5_image_mode := by
  unfold mode5ApplyImage; split
  · split
    · split <;> rfl
    · rfl
  · split <;> rfl

theorem mode5ApplyImage_image_number_of_ne (ins : SlideInstr) (s : Slide)
    (h : (ins.image_mode == str "UPLOAD") = false) :
    (mode5ApplyImage ins s).image_number = s.image_number := by
  unfold mode5ApplyImage
  rw [if_neg (by simp [h])]
  split <;> rfl

/-- A built Mode-5 slide never carries an image query, always stores its
instruction's image mode, and carries no image number unless the
instruction's image mode is `UPLOAD`. -/
theorem buildMode5Slide_props (g : GenOracle) (topic subject : Str) (ins : SlideInstr) :
    (buildMode5Slide g topic subject ins).image_query = none
    ∧ (buildMode5Slide g topic subject ins).mode5_image_mode = some ins.image_mode
    ∧ ((ins.image_mode == str "UPLOAD") = false →
        (buildMode5Slide g topic subject ins).image_number = none) := by
  refine ⟨?_, ?_, ?_⟩
  · rw [buildMode5Slide, mode5ApplyContent_query, mode5ApplyImage_query]; rfl
  · rw [buildMode5Slide, mode5ApplyContent_flag, mode5ApplyImage_flag]; rfl
  · intro h
    rw [buildMode5Slide, mode5ApplyContent_image_number,
      mode5ApplyImage_image_number_of_ne ins _ h]
    rfl

theorem mergeBack_mem (included : Slide → Bool) (l : List Slide) :
    ∀ (hs : List Slide) (x : Slide), x ∈ mergeBack included l hs → x ∈ l ∨ x ∈ hs := by
  induction l with
  | nil => intro hs x hx; cases hx
  | cons s rest ih =>
    intro hs x hx
    simp only [mergeBack] at hx
    split at hx
    · cases hs with
      | nil => exact Or.inl hx
      | cons h hs2 =>
        rcases List.mem_cons.1 hx with rfl | hx2
        · exact Or.inr (List.mem_cons_self _ _)
        · rcases ih hs2 x hx2 with h1 | h2
          · exact Or.inl (List.mem_cons_of_mem _ h1)
          · exact Or.inr (List.mem_cons_of_mem _ h2)
    · rcases List.mem_cons.1 hx with rfl | hx2
      · exact Or.inl (List.mem_cons_self _ _)
      · rcases ih hs x hx2 with h1 | h2
        · exact Or.inl (List.mem_cons_of_mem _ h1)
        · exact Or.inr h2

/-- Every slide the hint scan emits is an input slide, possibly with a
new `image_query`; its image-mode flag and image number are untouched. -/
theorem addImageHintsScan_mem (topic subject : Str) (m : Nat) (l : List Slide) :
    ∀ (hc : Nat) (f : Bool) (x : Slide),
      x ∈ (addImageHintsScan topic subject m hc f l).1 →
      ∃ y ∈ l, x.mode5_image_mode = y.mode5_image_mode
        ∧ x.image_number = y.image_number := by
  induction l with
  | nil => intro hc f x hx; cases hx
  | cons s rest ih =>
    intro hc f x hx
    simp only [addImageHintsScan] at hx
    split at hx
    · rcases List.mem_cons.1 hx with rfl | hx2
      · exact ⟨x, List.mem_cons_self _ _, rfl, rfl⟩
      · obtain ⟨y, hy, he⟩ := ih hc f x hx2
        exact ⟨y, List.mem_cons_of_mem _ hy, he⟩
    · split at hx
      · exact ⟨x, hx, rfl, rfl⟩
      · split at hx
        · rcases List.mem_cons.1 hx with rfl | hx2
          · exact ⟨s, List.mem_cons_self _ _, rfl, rfl⟩
          · obtain ⟨y, hy, he⟩ := ih (hc + 1) f x hx2
            exact ⟨y, List.mem_cons_of_mem _ hy, he⟩
        · split at hx
          · rcases List.mem_cons.1 hx with rfl | hx2
            · exact ⟨s, List.mem_cons_self _ _, rfl, rfl⟩
            · obtain ⟨y, hy, he⟩ := ih (hc + 1) true x hx2
              exact ⟨y, List.mem_cons_of_mem _ hy, he⟩
          · rcases List.mem_cons.1 hx with rfl | hx2
            · exact ⟨x, List.mem_cons_self _ _, rfl, rfl⟩
            · obtain ⟨y, hy, he⟩ := ih hc f x hx2
              exact ⟨y, List.mem_cons_of_mem _ hy, he⟩

/-- Same for the fallback sweep. -/
theorem addImageHintsFallback_mem (q : Str) (l : List Slide) :
    ∀ x ∈ addImageHintsFallback q l,
      ∃ y ∈ l, x.mode5_image_mode = y.mode5_image_mode
        ∧ x.image_number = y.image_number := by
  induction l with
  | nil => intro x hx; cases hx
  | cons s rest ih =>
    intro x hx
    simp only [addImageHintsFallback] at hx
    split at hx
    · rcases List.mem_cons.1 hx with rfl | hx2
      · exact ⟨x, List.mem_cons_self _ _, rfl, rfl⟩
      · obtain ⟨y, hy, he⟩ := ih x hx2
        exact ⟨y, List.mem_cons_of_mem _ hy, he⟩
    · split at hx
      · rcases List.mem_cons.1 hx with rfl | hx2
        · exact ⟨s, List.mem_cons_self _ _, rfl, rfl⟩
        · exact ⟨x, List.mem_cons_of_mem _ hx2, rfl, rfl⟩
      · rcases List.mem_cons.1 hx with rfl | hx2
        · exact ⟨x, List.mem_cons_self _ _, rfl, rfl⟩
        · obtain ⟨y, hy, he⟩ := ih x hx2
          exact ⟨y, List.mem_cons_of_mem _ hy, he⟩

/-- Every slide the whole hint step emits descends from an input slide
with the same image-mode flag and image number. -/
theorem addImageHints_mem (l : List Slide) (topic subject : Str) (m : Nat) :
    ∀ x ∈ addImageHints l topic subject m,
      ∃ y ∈ l, x.mode5_image_mode = y.mode5_image_mode
        ∧ x.image_number = y.image_number := by
  intro x hx
  simp only [addImageHints] at hx
  split at hx
  · exact addImageHintsScan_mem topic subject m l 0 false x hx
  · obtain ⟨y, hy, hyf, hyn⟩ := addImageHintsFallback_mem _ _ x hx
    obtain ⟨z, hz, hzf, hzn⟩ := addImageHintsScan_mem topic subject m l 0 false y hy
    exact ⟨z, hz, hyf.trans hzf, hyn.trans hzn⟩

/-- A slide admitted to the Mode-5 hint view cannot be image-locked. -/
theorem mode5HintIncluded_flag (s : Slide) (h : mode5HintIncluded s = true) :
    s.mode5_image_mode ≠ some (str "NONE") := by
  intro hflag
  unfold mode5HintIncluded at h
  rw [hflag] at h
  simp at h

/-- Inversion of a successful Mode-5 generation: the returned slides are
the shaped merge of the built slides with the hinted view. -/
theorem generateMode5_ok_inv (g : GenOracle) (p : ParsedRequest) (r : PPTResult)
    (h : generateMode5 g p = .ok r) :
    r.slides =
      (mergeBack mode5HintIncluded
        (baseSlide p.topic p.subject
          :: p.slide_instructions.map (buildMode5Slide g p.topic p.subject))
        (addImageHints
          ((baseSlide p.topic p.subject
            :: p.slide_instructions.map (buildMode5Slide g p.topic p.subject)).filter
            mode5HintIncluded)
          p.topic p.subject 3)).map (enforceSlide true) := by
  simp only [generateMode5] at h
  split at h
  · cases h
  · split at h
    · cases h
    · split at h
      · cases h
      · split at h
        · cases h
        · cases h
          rfl

/-- C8.  Mode-5 image lock.  First conjunct: a block that parses to an
instruction, matches no `Use Image N` directive and contains the `no
image` phrase yields the `NONE` image intent (with the `no_image` flag).
Second conjunct: in any successful Mode-5 generation, every slide whose
stored image mode is `NONE` ends with neither an image number nor an
image query — the hint step having run over the rest of the deck. -/
theorem spec_C8_image_lock :
    (∀ (n : Nat) (b : Str) (ins : SlideInstr),
      parseMode5Block n b = .ok (some ins) →
      scanUseImage b = none →
      containsSub (str "no image") (lowerStr b) = true →
      ins.image_mode = str "NONE" ∧ ins.no_image = true)
    ∧ (∀ (g : GenOracle) (p : ParsedRequest) (r : PPTResult),
      generateMode5 g p = .ok r →
      ∀ s ∈ r.slides, s.mode5_image_mode = some (str "NONE") →
        s.image_number = none ∧ s.image_query = none) := by
  constructor
  · intro n b ins h hscan hni
    simp only [parseMode5Block, hscan, hni, if_pos] at h
    split at h
    · cases h
    · split at h
      · cases h
      · cases h
        exact ⟨rfl, rfl⟩
  · intro g p r h s hs hflag
    rw [generateMode5_ok_inv g p r h] at hs
    obtain ⟨y, hy, rfl⟩ := List.mem_map.1 hs
    rw [enforceSlide_mode5_flag] at hflag
    rw [enforceSlide_image_number, enforceSlide_image_query]
    rcases mergeBack_mem _ _ _ y hy with hyl | hyh
    · rcases List.mem_cons.1 hyl with rfl | hy2
      · exact absurd hflag (by simp [baseSlide])
      · obtain ⟨ins, hins, rfl⟩ := List.mem_map.1 hy2
        obtain ⟨hq, hf, hn⟩ := buildMode5Slide_props g p.topic p.subject ins
        have hmode : ins.image_mode = str "NONE" := by
          rw [hf] at hflag
          exact Option.some.injEq _ _ ▸ hflag
        refine ⟨hn ?_, hq⟩
        rw [hmode]
        decide
    · obtain ⟨z, hz, hzf, hzn⟩ :=
        addImageHints_mem _ p.topic p.subject 3 y hyh
      have hzfil := (List.mem_filter.1 hz).2
      exact absurd (hzf ▸ hflag) (mode5HintIncluded_flag z hzfil)

/-- C8 witness: the concrete `no image` block parses to the `NONE`
intent, and the corresponding assembled slide of the concrete Mode-5 run
carries neither image number nor image query. -/
theorem spec_C8_witness :
    (c8Instr.image_mode = str "NONE" ∧ c8Instr.no_image = true)
    ∧ (c8FinalSlide.image_number = none ∧ c8FinalSlide.image_query = none) :=
  ⟨spec_C8_image_lock.1 1 c8Block c8Instr rfl rfl (by decide),
   spec_C8_image_lock.2 alwaysRaiseGen c8Parsed c8Result rfl c8FinalSlide
     (by decide) rfl⟩

/-! ## Supporting lemmas: the real image-hint bound -/

theorem countQueries_cons (x : Slide) (xs : List Slide) :
    countQueries (x :: xs) =
      (if x.image_query.isSome then 1 else 0) + countQueries xs := by
  unfold countQueries
  rw [List.filter_cons]
  split
  · simp [Nat.add_comm]
  · simp

/-- The scan adds at most its remaining hint budget. -/
theorem addImageHintsScan_bound (topic subject : Str) (m : Nat) (l : List Slide) :
    ∀ (hc : Nat) (f : Bool),
      countQueries (addImageHintsScan topic subject m hc f l).1
        ≤ countQueries l + (m - hc) := by
  induction l with
  | nil => intro hc f; simp [addImageHintsScan, countQueries]
  | cons s rest ih =>
    intro hc f
    simp only [addImageHintsScan]
    split
    · have h1 := ih hc f
      rw [countQueries_cons, countQueries_cons]
      generalize (if s.image_query.isSome then 1 else 0) = c
      omega
    · split
      · exact Nat.le_add_right _ _
      · split
        · have h1 := ih (hc + 1) f
          rw [countQueries_cons, countQueries_cons]
          simp only [Option.isSome_some, if_pos]
          generalize (if s.image_query.isSome then 1 else 0) = c
          omega
        · split
          · have h1 := ih (hc + 1) true
            rw [countQueries_cons, countQueries_cons]
            simp only [Option.isSome_some, if_pos]
            generalize (if s.image_query.isSome then 1 else 0) = c
            omega
          · have h1 := ih hc f
            rw [countQueries_cons, countQueries_cons]
            generalize (if s.image_query.isSome then 1 else 0) = c
            omega

/-- The fallback sweep hints at most one additional slide. -/
theorem addImageHintsFallback_bound (q : Str) (l : List Slide) :
    countQueries (addImageHintsFallback q l) ≤ countQueries l + 1 := by
  induction l with
  | nil => simp [addImageHintsFallback, countQueries]
  | cons s rest ih =>
    simp only [addImageHintsFallback]
    split
    · rw [countQueries_cons, countQueries_cons]
      generalize (if s.image_query.isSome then 1 else 0) = c
      omega
    · split
      · rw [countQueries_cons, countQueries_cons]
        simp only [Option.isSome_some, if_pos]
        generalize (if s.image_query.isSome then 1 else 0) = c
        omega
      · rw [countQueries_cons, countQueries_cons]
        generalize (if s.image_query.isSome then 1 else 0) = c
        omega

/-- C9 (amended).  On a slide list carrying no queries yet, the scan
assigns at most 3 `imageQuery` hints, and the architecture fallback may
assign one more to the first content-type slide, so at most 4 slides in
total end up carrying an `imageQuery`. -/
theorem spec_C9_amended_bound :
    ∀ (slides : List Slide) (topic subject : Str),
      (∀ s ∈ slides, s.image_query = none) →
      countQueries (addImageHints slides topic subject 3) ≤ 4 := by
  intro slides topic subject h
  have h0 : countQueries slides = 0 := by
    unfold countQueries
    have hnil : slides.filter (fun s => s.image_query.isSome) = [] :=
      List.filter_eq_nil_iff.2 (fun s hs => by rw [h s hs]; simp)
    rw [hnil]; rfl
  simp only [addImageHints]
  split
  · have h1 := addImageHintsScan_bound topic subject 3 slides 0 false
    omega
  · have h1 := addImageHintsFallback_bound (archQuery topic subject)
      (addImageHintsScan topic subject 3 0 false slides).1
    have h2 := addImageHintsScan_bound topic subject 3 slides 0 false
    omega

/-- C9 (amended) witness: the bound applied to the concrete
counterexample list, which indeed reaches 4. -/
theorem spec_C9_amended_witness :
    countQueries (addImageHints c9Slides (str "t") (str "s") 3) ≤ 4 :=
  spec_C9_amended_bound c9Slides (str "t") (str "s") (by decide)

end PPTAgent
